import Mathlib

/-!
Shallow embedding of the lesson/quiz/badge/streak core of the
NASA-app-challenge repository (src/spaced.js and src/unnamed/part_000).

Conventions of the embedding:
* JavaScript object maps (`completedLessons`) become association lists
  `List (String × List Nat)` preserving insertion order, with `lookupC` /
  `setC` mirroring property read / write.
* Calendar dates (`new Date().toDateString()` values) become integers
  counting days; "yesterday" relative to day `d` is `d - 1`.
* Calls to `showNotification` / `showBadgeNotification` become a
  `List String` of emitted notification messages returned alongside the
  updated state; DOM rendering, audio and `localStorage` writes
  (`saveUserData`) have no further state effect and are dropped.
* The quiz modal DOM of spaced.js is modelled by `QuizView`: while the
  question is shown the checked radio is `question selected`; after
  `showQuizResults` replaces the modal innerHTML the radios are gone and
  the view is `results isCorrect`, so a `querySelector` for a checked
  input yields nothing.
-/

namespace NasaApp

/-- Entry of `BadgeSystem.badges` (spaced.js lines 534-543). -/
structure BadgeDef where
  id : String
  name : String
  icon : String
  description : String
deriving DecidableEq

/-- The static badge catalog `BadgeSystem.badges` from spaced.js. -/
def badgeCatalog : List BadgeDef :=
  [ ⟨"first_lesson", "First Steps", "👶", "Complete your first lesson"⟩,
    ⟨"quiz_master", "Quiz Master", "🧠", "Pass 5 quizzes"⟩,
    ⟨"week_streak", "Consistent", "🔥", "Maintain a 7-day streak"⟩,
    ⟨"course_complete", "Graduate", "🎓", "Complete a full course"⟩,
    ⟨"speed_learner", "Speed Learner", "⚡", "Complete 3 lessons in one day"⟩,
    ⟨"explorer", "Explorer", "🚀", "Start all three courses"⟩,
    ⟨"perfectionist", "Perfectionist", "💯", "Get 100% on 5 quizzes"⟩,
    ⟨"dedicated", "Dedicated", "💪", "Study for 30 days total"⟩ ]

/-- `AppState.userProgress` (spaced.js lines 8-15). -/
structure UserProgress where
  completedLessons : List (String × List Nat)
  streak : Nat
  level : Nat
  xp : Nat
  lastLoginDate : Option Int
  badges : List String
deriving DecidableEq

/-- The initial value of `AppState.userProgress` (spaced.js lines 8-15). -/
def initialProgress : UserProgress :=
  { completedLessons := [], streak := 0, level := 1, xp := 0,
    lastLoginDate := none, badges := [] }

/-- Property read `m[c]` on a JS object modelled as an association list. -/
def lookupC (m : List (String × List Nat)) (c : String) : Option (List Nat) :=
  match m with
  | [] => none
  | (k, v) :: t => if k = c then some v else lookupC t c

/-- Property write `m[c] = v` on a JS object modelled as an association list. -/
def setC (m : List (String × List Nat)) (c : String) (v : List Nat) :
    List (String × List Nat) :=
  match m with
  | [] => [(c, v)]
  | (k, w) :: t => if k = c then (c, v) :: t else (k, w) :: setC t c v

/-- `AppState.userProgress.completedLessons[c] || []`. -/
def cl (p : UserProgress) (c : String) : List Nat :=
  (lookupC p.completedLessons c).getD []

/-- `BadgeSystem.showBadgeNotification` (spaced.js lines 553-558):
looks the badge up in the catalog and emits one notification if found. -/
def showBadgeNotificationMsgs (badgeId : String) : List String :=
  match badgeCatalog.find? (fun b => b.id = badgeId) with
  | some b => ["Badge Earned: " ++ b.icon ++ " " ++ b.name]
  | none => []

/-- `BadgeSystem.checkAndAwardBadge` (spaced.js lines 545-551): pushes the
badge id and notifies only when the id is not yet in the badge list. -/
def checkAndAwardBadge (p : UserProgress) (badgeId : String) :
    UserProgress × List String :=
  if badgeId ∈ p.badges then (p, [])
  else ({ p with badges := p.badges ++ [badgeId] },
        showBadgeNotificationMsgs badgeId)

/-- `updateLevel` (spaced.js lines 972-978): recomputes
`Math.floor(xp/100)+1` and raises the stored level (with a notification)
only when the recomputed value is strictly larger. -/
def updateLevel (p : UserProgress) : UserProgress × List String :=
  let newLevel := p.xp / 100 + 1
  if newLevel > p.level then
    ({ p with level := newLevel }, ["Level Up!"])
  else (p, [])

/-- `updateStreak` (spaced.js lines 980-998), with the current date passed
in as the day number `today`.  When `lastLoginDate` already equals `today`
nothing happens; on a consecutive day the streak is incremented (awarding
`week_streak` at 7 or more); otherwise it resets to 1; in both of the
latter cases `lastLoginDate` becomes `today`. -/
def updateStreak (p : UserProgress) (today : Int) : UserProgress × List String :=
  if p.lastLoginDate = some today then (p, [])
  else
    let step :=
      if p.lastLoginDate = some (today - 1) then
        let p1 := { p with streak := p.streak + 1 }
        if p1.streak ≥ 7 then checkAndAwardBadge p1 "week_streak"
        else (p1, [])
      else ({ p with streak := 1 }, [])
    ({ step.1 with lastLoginDate := some today }, step.2)

/-- The first statement of `markLessonCompleted` (spaced.js lines
906-908): `if (!completedLessons[courseId]) completedLessons[courseId] = []`. -/
def ensureCourse (p : UserProgress) (courseId : String) : UserProgress :=
  if (lookupC p.completedLessons courseId).isNone
  then { p with completedLessons := setC p.completedLessons courseId [] }
  else p

/-- `markLessonCompleted` (spaced.js lines 905-917): ensures the course
entry exists, and when the lesson index is new appends it, adds 25 xp and
runs `updateLevel` and `updateStreak`; a repeated index changes nothing. -/
def markLessonCompleted (p : UserProgress) (today : Int) (courseId : String)
    (lessonIndex : Nat) : UserProgress × List String :=
  let p0 := ensureCourse p courseId
  let lessons := cl p0 courseId
  if lessonIndex ∈ lessons then (p0, [])
  else
    let p1 := { p0 with
      completedLessons := setC p0.completedLessons courseId (lessons ++ [lessonIndex]),
      xp := p0.xp + 25 }
    let r2 := updateLevel p1
    let r3 := updateStreak r2.1 today
    (r3.1, r2.2 ++ r3.2)

/-- `completeCourse` (spaced.js lines 924-930): awards the
`course_complete` badge, adds 100 xp and runs `updateLevel`
(the certificate modal is UI only). -/
def completeCourse (p : UserProgress) : UserProgress × List String :=
  let r1 := checkAndAwardBadge p "course_complete"
  let p2 := { r1.1 with xp := r1.1.xp + 100 }
  let r3 := updateLevel p2
  (r3.1, r1.2 ++ r3.2)

/-- The parts of the global `AppState` the progression logic reads. -/
structure AppState where
  currentCourse : String
  currentLesson : Nat
  userProgress : UserProgress
deriving DecidableEq

/-- Observable outcome of one advancement step. -/
inductive AdvanceResult where
  | onLesson (i : Nat)
  | courseComplete
deriving DecidableEq

/-- `proceedToNextLesson` (spaced.js lines 808-823): marks the current
lesson complete, then either moves to the next lesson (when
`currentLesson < lessons.length - 1`, compared as JS numbers, hence over
ℤ) or calls `completeCourse`.  `lessonCount` is
`CoursesData[currentCourse].lessons.length`. -/
def proceedToNextLesson (s : AppState) (lessonCount : Nat) (today : Int) :
    AppState × AdvanceResult × List String :=
  let r1 := markLessonCompleted s.userProgress today s.currentCourse s.currentLesson
  if (s.currentLesson : Int) < (lessonCount : Int) - 1 then
    ({ s with currentLesson := s.currentLesson + 1, userProgress := r1.1 },
     AdvanceResult.onLesson (s.currentLesson + 1), r1.2)
  else
    let r2 := completeCourse r1.1
    ({ s with userProgress := r2.1 }, AdvanceResult.courseComplete, r1.2 ++ r2.2)

/-- State of the quiz modal of spaced.js: either the question markup with
an optionally checked radio, or the results markup `showQuizResults`
substituted in (which removes the radios). -/
inductive QuizView where
  | question (selected : Option Nat)
  | results (isCorrect : Bool)
deriving DecidableEq

/-- `submitQuiz` (spaced.js lines 860-880): reads the checked radio (none
exists in the results view or when nothing is selected, in which case it
alerts and returns), computes `isCorrect`, swaps in the results view, and
on a correct answer adds 10 xp, runs `updateLevel` and awards
`quiz_master`. -/
def submitQuiz (view : QuizView) (correctAnswer : Nat) (p : UserProgress) :
    QuizView × UserProgress × List String :=
  match view with
  | QuizView.results r => (QuizView.results r, p, [])
  | QuizView.question none => (QuizView.question none, p, [])
  | QuizView.question (some userAnswer) =>
    let isCorrect := userAnswer == correctAnswer
    if isCorrect then
      let p1 := { p with xp := p.xp + 10 }
      let r2 := updateLevel p1
      let r3 := checkAndAwardBadge r2.1 "quiz_master"
      (QuizView.results isCorrect, r3.1, r2.2 ++ r3.2)
    else (QuizView.results isCorrect, p, [])

/-- `loadLesson` (spaced.js lines 769-787): when the lesson index is in
range it renders the lesson and unconditionally runs
`checkAndAwardBadge("first_lesson")`; out of range it returns early. -/
def loadLesson (p : UserProgress) (lessonCount lessonIndex : Nat) :
    UserProgress × List String :=
  if lessonIndex < lessonCount then checkAndAwardBadge p "first_lesson"
  else (p, [])

/-! Climate-dashboard quiz and streak logic (src/unnamed/part_000). -/

/-- One entry of `quizQuestions` in part_000 (only the fields
`selectAnswer` reads). -/
structure ClimateQuestion where
  options : List String
  correct : Nat
deriving DecidableEq

/-- The fields of `currentQuiz` in part_000. -/
structure ClimateQuizState where
  questionIndex : Nat
  score : Nat
  answered : Bool
deriving DecidableEq

/-- CSS classes `selectAnswer` adds to a rendered quiz option. -/
inductive OptionMark where
  | correct
  | incorrect
  | plain
deriving DecidableEq

/-- `selectAnswer` (part_000 lines 565-595), with `q` standing for
`quizQuestions[currentQuiz.questionIndex]`.  A second click is cut off by
the `answered` guard; otherwise the handler marks every rendered option
(the correct one with the class `correct`, the clicked wrong one with
`incorrect`), and increments the score when the click was correct.  The
`setTimeout` advancing `questionIndex` two seconds later is a deferred
callback outside this synchronous handler and is not part of the value. -/
def selectAnswer (q : ClimateQuestion) (cq : ClimateQuizState)
    (selectedIndex : Nat) : ClimateQuizState × List OptionMark :=
  if cq.answered then (cq, [])
  else
    let marks := (List.range q.options.length).map (fun i =>
      if i = q.correct then OptionMark.correct
      else if i = selectedIndex then OptionMark.incorrect
      else OptionMark.plain)
    let cq1 := { cq with answered := true }
    if selectedIndex = q.correct then
      ({ cq1 with score := cq1.score + 1 }, marks)
    else (cq1, marks)

/-- The fields of the part_000 `userData` object that the streak/badge
logic uses. -/
structure ClimateUserData where
  streak : Nat
  lastVisit : Option Int
  badges : List (String × String)
deriving DecidableEq

/-- `awardBadge` (part_000 lines 818-828): pushes `(icon, name)` and
notifies only when no badge of that name exists yet. -/
def awardBadge (u : ClimateUserData) (icon name : String) :
    ClimateUserData × List String :=
  if u.badges.any (fun b => b.2 = name) then (u, [])
  else ({ u with badges := u.badges ++ [(icon, name)] }, [name])

/-- `checkDailyVisit` (part_000 lines 787-816), with dates as day
numbers: a same-day revisit changes nothing; a consecutive day increments
the streak, anything else resets it to 1; `lastVisit` becomes `today` and
streak badges are checked at exactly 7 and 30. -/
def checkDailyVisit (u : ClimateUserData) (today : Int) :
    ClimateUserData × List String :=
  if u.lastVisit = some today then (u, [])
  else
    let u1 := if u.lastVisit = some (today - 1)
              then { u with streak := u.streak + 1 }
              else { u with streak := 1 }
    let u2 := { u1 with lastVisit := some today }
    if u2.streak = 7 then awardBadge u2 "📅" "Week Warrior"
    else if u2.streak = 30 then awardBadge u2 "🌟" "Monthly Master"
    else (u2, [])

/-! Persistence (`loadUserData`, spaced.js lines 1305-1323). -/

/-- A raw string stored under a `localStorage` key: either well-formed
JSON for a value of type `α` or a blob `JSON.parse` throws on. -/
inductive Json (α : Type) where
  | malformed
  | value (a : α)
deriving DecidableEq

/-- `JSON.parse`: yields the encoded value, or throws `SyntaxError` on a
malformed blob. -/
def jsonParse {α : Type} : Json α → Except String α
  | Json.malformed => Except.error "SyntaxError"
  | Json.value a => Except.ok a

/-- The storage-read portion of `loadUserData` (spaced.js lines
1306-1318), i.e. the value `AppState.userProgress` holds right after the
reads and before the subsequent `updateStreak()` call.  `storedUser` is
the `currentUser` key, `storedData` the `userData_<email>` key (the saved
snapshot is a full progress object, so the JS spread merge over the
defaults yields the stored snapshot).  There is no try/catch around
either `JSON.parse`, so a malformed blob propagates the thrown error. -/
def loadUserData (storedUser : Option (Json String))
    (storedData : Option (Json UserProgress)) : Except String UserProgress :=
  match storedUser with
  | none => Except.ok initialProgress
  | some u =>
    match jsonParse u with
    | Except.error e => Except.error e
    | Except.ok _ =>
      match storedData with
      | none => Except.ok initialProgress
      | some d =>
        match jsonParse d with
        | Except.error e => Except.error e
        | Except.ok data => Except.ok data

/-! A step language covering the core progress-mutating operations, for
the cross-operation invariants (level derivation and monotonicity). -/

/-- One core operation applied to `AppState.userProgress`. -/
inductive Op where
  | mark (courseId : String) (lessonIndex : Nat) (today : Int)
  | submit (selected : Option Nat) (correctAnswer : Nat)
  | award (badgeId : String)
  | streak (today : Int)
  | complete
deriving DecidableEq

/-- Effect of one core operation on the stored user progress. -/
def applyOp (op : Op) (p : UserProgress) : UserProgress :=
  match op with
  | Op.mark c i d => (markLessonCompleted p d c i).1
  | Op.submit sel c => (submitQuiz (QuizView.question sel) c p).2.1
  | Op.award b => (checkAndAwardBadge p b).1
  | Op.streak d => (updateStreak p d).1
  | Op.complete => (completeCourse p).1

/-- Run a sequence of core operations left to right. -/
def runOps (ops : List Op) (p : UserProgress) : UserProgress :=
  ops.foldl (fun q op => applyOp op q) p

/-- The level the spec derives from xp: `floor(xp/100) + 1`. -/
def derivedLevel (xp : Nat) : Nat := xp / 100 + 1

/-- The stored level agrees with the level derived from xp. -/
def levelInv (p : UserProgress) : Prop := p.level = derivedLevel p.xp

/-- Sample state: a user on a 5-day streak last seen on day 0 (the spec
example with `lastLoginDate = "2024-01-01"`, `streak = 5`). -/
def sampleStreakProgress : UserProgress :=
  { completedLessons := [], streak := 5, level := 1, xp := 0,
    lastLoginDate := some 0, badges := [] }

/-- Sample state: a fresh climate-dashboard user. -/
def sampleClimateUser : ClimateUserData :=
  { streak := 0, lastVisit := none, badges := [] }

/-- Sample state: a user who has completed lesson 0 of the aerospace
course and holds one badge. -/
def sampleProgressWithLesson : UserProgress :=
  { completedLessons := [("aerospace", [0])], streak := 1, level := 1,
    xp := 25, lastLoginDate := some 0, badges := ["first_lesson"] }

/-- The quiz of the spec scenario: options A-D, correct index 2. -/
def sampleQuestion : ClimateQuestion :=
  { options := ["A", "B", "C", "D"], correct := 2 }

/-! Lemmas about the association-list map. -/

theorem lookupC_setC_self (m : List (String × List Nat)) (c : String)
    (v : List Nat) : lookupC (setC m c v) c = some v := by
  induction m with
  | nil => simp [setC, lookupC]
  | cons h t ih =>
    obtain ⟨k, w⟩ := h
    by_cases hk : k = c <;> simp [setC, lookupC, hk, ih]

theorem lookupC_setC_ne (m : List (String × List Nat)) (c c' : String)
    (v : List Nat) (h : c' ≠ c) : lookupC (setC m c v) c' = lookupC m c' := by
  induction m with
  | nil => simp [setC, lookupC, Ne.symm h]
  | cons hd t ih =>
    obtain ⟨k, w⟩ := hd
    by_cases hk : k = c
    · subst hk
      simp [setC, lookupC, Ne.symm h]
    · by_cases hk' : k = c' <;> simp [setC, lookupC, hk, hk', ih, h]

theorem cl_ensureCourse (p : UserProgress) (c : String) :
    cl (ensureCourse p c) c = cl p c := by
  unfold ensureCourse cl
  split
  · next h =>
    rw [Option.isNone_iff_eq_none] at h
    simp [lookupC_setC_self, h]
  · rfl

theorem cl_ensureCourse_ne (p : UserProgress) (c c' : String) (h : c' ≠ c) :
    cl (ensureCourse p c) c' = cl p c' := by
  unfold ensureCourse cl
  split
  · simp [lookupC_setC_ne _ _ _ _ h]
  · rfl

theorem ensureCourse_xp (p : UserProgress) (c : String) :
    (ensureCourse p c).xp = p.xp := by
  unfold ensureCourse; split <;> rfl

theorem ensureCourse_level (p : UserProgress) (c : String) :
    (ensureCourse p c).level = p.level := by
  unfold ensureCourse; split <;> rfl

theorem ensureCourse_badges (p : UserProgress) (c : String) :
    (ensureCourse p c).badges = p.badges := by
  unfold ensureCourse; split <;> rfl

/-! Component lemmas for `updateLevel`. -/

theorem updateLevel_xp (p : UserProgress) : (updateLevel p).1.xp = p.xp := by
  unfold updateLevel; dsimp only; split <;> rfl

theorem updateLevel_completedLessons (p : UserProgress) :
    (updateLevel p).1.completedLessons = p.completedLessons := by
  unfold updateLevel; dsimp only; split <;> rfl

theorem updateLevel_badges (p : UserProgress) :
    (updateLevel p).1.badges = p.badges := by
  unfold updateLevel; dsimp only; split <;> rfl

theorem updateLevel_level (p : UserProgress) (h : p.level ≤ derivedLevel p.xp) :
    (updateLevel p).1.level = derivedLevel p.xp := by
  unfold updateLevel derivedLevel at *
  dsimp only
  split
  · rfl
  · next hlt =>
    show p.level = p.xp / 100 + 1
    omega

/-! Component lemmas for `checkAndAwardBadge`. -/

theorem award_xp (p : UserProgress) (b : String) :
    (checkAndAwardBadge p b).1.xp = p.xp := by
  unfold checkAndAwardBadge; split <;> rfl

theorem award_level (p : UserProgress) (b : String) :
    (checkAndAwardBadge p b).1.level = p.level := by
  unfold checkAndAwardBadge; split <;> rfl

theorem award_completedLessons (p : UserProgress) (b : String) :
    (checkAndAwardBadge p b).1.completedLessons = p.completedLessons := by
  unfold checkAndAwardBadge; split <;> rfl

theorem award_streak (p : UserProgress) (b : String) :
    (checkAndAwardBadge p b).1.streak = p.streak := by
  unfold checkAndAwardBadge; split <;> rfl

theorem award_lastLoginDate (p : UserProgress) (b : String) :
    (checkAndAwardBadge p b).1.lastLoginDate = p.lastLoginDate := by
  unfold checkAndAwardBadge; split <;> rfl

theorem award_badges_mono (p : UserProgress) (b x : String)
    (h : x ∈ p.badges) : x ∈ (checkAndAwardBadge p b).1.badges := by
  unfold checkAndAwardBadge
  split
  · exact h
  · simp [h]

theorem award_mem_self (p : UserProgress) (b : String) :
    b ∈ (checkAndAwardBadge p b).1.badges := by
  unfold checkAndAwardBadge
  split
  · next h => exact h
  · simp

theorem award_already (p : UserProgress) (b : String) (h : b ∈ p.badges) :
    checkAndAwardBadge p b = (p, []) := by
  unfold checkAndAwardBadge
  simp [h]

theorem award_new_badges (p : UserProgress) (b : String) (h : b ∉ p.badges) :
    (checkAndAwardBadge p b).1.badges = p.badges ++ [b] := by
  unfold checkAndAwardBadge
  simp [h]

/-! Component lemmas for `updateStreak`. -/

theorem updateStreak_xp (p : UserProgress) (d : Int) :
    (updateStreak p d).1.xp = p.xp := by
  unfold updateStreak
  split
  · rfl
  · dsimp only
    split
    · split
      · simp [award_xp]
      · rfl
    · rfl

theorem updateStreak_level (p : UserProgress) (d : Int) :
    (updateStreak p d).1.level = p.level := by
  unfold updateStreak
  split
  · rfl
  · dsimp only
    split
    · split
      · simp [award_level]
      · rfl
    · rfl

theorem updateStreak_completedLessons (p : UserProgress) (d : Int) :
    (updateStreak p d).1.completedLessons = p.completedLessons := by
  unfold updateStreak
  split
  · rfl
  · dsimp only
    split
    · split
      · simp [award_completedLessons]
      · rfl
    · rfl

theorem updateStreak_badges_mono (p : UserProgress) (d : Int) (x : String)
    (h : x ∈ p.badges) : x ∈ (updateStreak p d).1.badges := by
  unfold updateStreak
  split
  · exact h
  · dsimp only
    split
    · split
      · exact award_badges_mono _ _ _ h
      · exact h
    · exact h

/-! Characterisation lemmas for `markLessonCompleted`. -/

theorem mark_cl_self (p : UserProgress) (d : Int) (c : String) (i : Nat) :
    cl (markLessonCompleted p d c i).1 c =
      if i ∈ cl p c then cl p c else cl p c ++ [i] := by
  unfold markLessonCompleted
  dsimp only
  rw [cl_ensureCourse]
  split
  · next h => simp [h, cl_ensureCourse]
  · next h =>
    simp only [h, if_false]
    unfold cl
    rw [updateStreak_completedLessons, updateLevel_completedLessons]
    dsimp only
    rw [lookupC_setC_self]
    simp [cl_ensureCourse p c]

theorem mark_cl_ne (p : UserProgress) (d : Int) (c c' : String) (i : Nat)
    (hne : c' ≠ c) : cl (markLessonCompleted p d c i).1 c' = cl p c' := by
  unfold markLessonCompleted
  dsimp only
  rw [cl_ensureCourse]
  split
  · exact cl_ensureCourse_ne p c c' hne
  · unfold cl
    rw [updateStreak_completedLessons, updateLevel_completedLessons]
    dsimp only
    rw [lookupC_setC_ne _ _ _ _ hne]
    exact cl_ensureCourse_ne p c c' hne

theorem mark_xp (p : UserProgress) (d : Int) (c : String) (i : Nat) :
    (markLessonCompleted p d c i).1.xp =
      if i ∈ cl p c then p.xp else p.xp + 25 := by
  unfold markLessonCompleted
  dsimp only
  rw [cl_ensureCourse]
  split
  · exact ensureCourse_xp p c
  · rw [updateStreak_xp, updateLevel_xp]
    dsimp only
    rw [ensureCourse_xp]

theorem mark_badges_mono (p : UserProgress) (d : Int) (c : String) (i : Nat)
    (x : String) (h : x ∈ p.badges) :
    x ∈ (markLessonCompleted p d c i).1.badges := by
  unfold markLessonCompleted
  dsimp only
  rw [cl_ensureCourse]
  split
  · rw [ensureCourse_badges]; exact h
  · apply updateStreak_badges_mono
    rw [updateLevel_badges]
    dsimp only
    rw [ensureCourse_badges]
    exact h

theorem mark_levelInv (p : UserProgress) (d : Int) (c : String) (i : Nat)
    (h : levelInv p) : levelInv (markLessonCompleted p d c i).1 := by
  unfold markLessonCompleted
  dsimp only
  rw [cl_ensureCourse]
  unfold levelInv at *
  split
  · rw [ensureCourse_level, ensureCourse_xp]; exact h
  · rw [updateStreak_level, updateStreak_xp, updateLevel_xp]
    apply updateLevel_level
    dsimp only
    rw [ensureCourse_level, ensureCourse_xp]
    rw [h]
    unfold derivedLevel
    have := Nat.div_le_div_right (c := 100) (Nat.le_add_right p.xp 25)
    omega

/-! Characterisation lemmas for `completeCourse`. -/

theorem complete_xp (p : UserProgress) : (completeCourse p).1.xp = p.xp + 100 := by
  unfold completeCourse
  dsimp only
  rw [updateLevel_xp]
  dsimp only
  rw [award_xp]

theorem complete_cl (p : UserProgress) (c : String) :
    cl (completeCourse p).1 c = cl p c := by
  unfold completeCourse cl
  dsimp only
  rw [updateLevel_completedLessons]
  dsimp only
  rw [award_completedLessons]

theorem complete_badges_mono (p : UserProgress) (x : String)
    (h : x ∈ p.badges) : x ∈ (completeCourse p).1.badges := by
  unfold completeCourse
  dsimp only
  rw [updateLevel_badges]
  dsimp only
  exact award_badges_mono _ _ _ h

theorem complete_mem_badge (p : UserProgress) :
    "course_complete" ∈ (completeCourse p).1.badges := by
  unfold completeCourse
  dsimp only
  rw [updateLevel_badges]
  dsimp only
  exact award_mem_self _ _

theorem complete_levelInv (p : UserProgress) (h : levelInv p) :
    levelInv (completeCourse p).1 := by
  unfold completeCourse
  unfold levelInv at *
  dsimp only
  rw [updateLevel_xp]
  apply updateLevel_level
  dsimp only
  rw [award_level, award_xp, h]
  unfold derivedLevel
  have := Nat.div_le_div_right (c := 100) (Nat.le_add_right p.xp 100)
  omega

/-! Characterisation lemmas for `submitQuiz`. -/

theorem submit_xp (a c : Nat) (p : UserProgress) :
    (submitQuiz (QuizView.question (some a)) c p).2.1.xp =
      if a = c then p.xp + 10 else p.xp := by
  unfold submitQuiz
  dsimp only
  by_cases h : a = c
  · simp only [h, beq_self_eq_true, if_true, if_pos]
    rw [award_xp, updateLevel_xp]
  · have hb : (a == c) = false := by simp [h]
    simp [hb, h]

theorem submit_view (a c : Nat) (p : UserProgress) :
    (submitQuiz (QuizView.question (some a)) c p).1 =
      QuizView.results (a == c) := by
  unfold submitQuiz
  dsimp only
  by_cases h : a = c
  · simp [h]
  · have hb : (a == c) = false := by simp [h]
    simp [hb]

theorem submit_cl (v : QuizView) (c : Nat) (p : UserProgress) (co : String) :
    cl (submitQuiz v c p).2.1 co = cl p co := by
  unfold submitQuiz
  match v with
  | QuizView.results r => rfl
  | QuizView.question none => rfl
  | QuizView.question (some a) =>
    dsimp only
    split
    · unfold cl
      rw [award_completedLessons, updateLevel_completedLessons]
    · rfl

theorem submit_badges_mono (v : QuizView) (c : Nat) (p : UserProgress)
    (x : String) (h : x ∈ p.badges) : x ∈ (submitQuiz v c p).2.1.badges := by
  unfold submitQuiz
  match v with
  | QuizView.results r => exact h
  | QuizView.question none => exact h
  | QuizView.question (some a) =>
    dsimp only
    split
    · apply award_badges_mono
      rw [updateLevel_badges]
      exact h
    · exact h

theorem submit_levelInv (v : QuizView) (c : Nat) (p : UserProgress)
    (h : levelInv p) : levelInv (submitQuiz v c p).2.1 := by
  unfold submitQuiz
  match v with
  | QuizView.results r => exact h
  | QuizView.question none => exact h
  | QuizView.question (some a) =>
    dsimp only
    split
    · unfold levelInv at *
      rw [award_level, award_xp, updateLevel_xp]
      apply updateLevel_level
      dsimp only
      rw [h]
      unfold derivedLevel
      have := Nat.div_le_div_right (c := 100) (Nat.le_add_right p.xp 10)
      omega
    · exact h

theorem updateStreak_levelInv (p : UserProgress) (d : Int) (h : levelInv p) :
    levelInv (updateStreak p d).1 := by
  unfold levelInv at *
  rw [updateStreak_level, updateStreak_xp]
  exact h

theorem award_levelInv (p : UserProgress) (b : String) (h : levelInv p) :
    levelInv (checkAndAwardBadge p b).1 := by
  unfold levelInv at *
  rw [award_level, award_xp]
  exact h

/-! Lemmas about a single core operation. -/

theorem applyOp_xp_mono (op : Op) (p : UserProgress) :
    p.xp ≤ (applyOp op p).xp := by
  match op with
  | Op.mark c i d =>
    show p.xp ≤ (markLessonCompleted p d c i).1.xp
    rw [mark_xp]
    split <;> omega
  | Op.submit sel c =>
    show p.xp ≤ (submitQuiz (QuizView.question sel) c p).2.1.xp
    match sel with
    | none => exact le_refl _
    | some a =>
      rw [submit_xp]
      split <;> omega
  | Op.award b =>
    show p.xp ≤ (checkAndAwardBadge p b).1.xp
    rw [award_xp]
  | Op.streak d =>
    show p.xp ≤ (updateStreak p d).1.xp
    rw [updateStreak_xp]
  | Op.complete =>
    show p.xp ≤ (completeCourse p).1.xp
    rw [complete_xp]
    omega

theorem applyOp_badges_mono (op : Op) (p : UserProgress) (x : String)
    (h : x ∈ p.badges) : x ∈ (applyOp op p).badges := by
  match op with
  | Op.mark c i d => exact mark_badges_mono p d c i x h
  | Op.submit sel c => exact submit_badges_mono _ c p x h
  | Op.award b => exact award_badges_mono p b x h
  | Op.streak d => exact updateStreak_badges_mono p d x h
  | Op.complete => exact complete_badges_mono p x h

theorem applyOp_cl_mono (op : Op) (p : UserProgress) (c : String) (x : Nat)
    (h : x ∈ cl p c) : x ∈ cl (applyOp op p) c := by
  match op with
  | Op.mark co i d =>
    show x ∈ cl (markLessonCompleted p d co i).1 c
    by_cases hc : c = co
    · subst hc
      rw [mark_cl_self]
      split
      · exact h
      · exact List.mem_append_left _ h
    · rw [mark_cl_ne p d co c i hc]
      exact h
  | Op.submit sel co =>
    show x ∈ cl (submitQuiz (QuizView.question sel) co p).2.1 c
    rw [submit_cl]
    exact h
  | Op.award b =>
    show x ∈ cl (checkAndAwardBadge p b).1 c
    unfold cl
    rw [award_completedLessons]
    exact h
  | Op.streak d =>
    show x ∈ cl (updateStreak p d).1 c
    unfold cl
    rw [updateStreak_completedLessons]
    exact h
  | Op.complete =>
    show x ∈ cl (completeCourse p).1 c
    rw [complete_cl]
    exact h

theorem applyOp_levelInv (op : Op) (p : UserProgress) (h : levelInv p) :
    levelInv (applyOp op p) := by
  match op with
  | Op.mark c i d => exact mark_levelInv p d c i h
  | Op.submit sel c => exact submit_levelInv _ c p h
  | Op.award b => exact award_levelInv p b h
  | Op.streak d => exact updateStreak_levelInv p d h
  | Op.complete => exact complete_levelInv p h

/-! Lemmas about sequences of core operations. -/

theorem runOps_cons (op : Op) (t : List Op) (p : UserProgress) :
    runOps (op :: t) p = runOps t (applyOp op p) := rfl

theorem runOps_xp_mono (ops : List Op) (p : UserProgress) :
    p.xp ≤ (runOps ops p).xp := by
  induction ops generalizing p with
  | nil => exact le_refl _
  | cons op t ih =>
    rw [runOps_cons]
    exact le_trans (applyOp_xp_mono op p) (ih (applyOp op p))

theorem runOps_badges_mono (ops : List Op) (p : UserProgress) (x : String)
    (h : x ∈ p.badges) : x ∈ (runOps ops p).badges := by
  induction ops generalizing p with
  | nil => exact h
  | cons op t ih =>
    rw [runOps_cons]
    exact ih (applyOp op p) (applyOp_badges_mono op p x h)

theorem runOps_cl_mono (ops : List Op) (p : UserProgress) (c : String)
    (x : Nat) (h : x ∈ cl p c) : x ∈ cl (runOps ops p) c := by
  induction ops generalizing p with
  | nil => exact h
  | cons op t ih =>
    rw [runOps_cons]
    exact ih (applyOp op p) (applyOp_cl_mono op p c x h)

theorem runOps_levelInv (ops : List Op) (p : UserProgress) (h : levelInv p) :
    levelInv (runOps ops p) := by
  induction ops generalizing p with
  | nil => exact h
  | cons op t ih =>
    rw [runOps_cons]
    exact ih (applyOp op p) (applyOp_levelInv op p h)

/-! Lemmas about the climate-dashboard functions. -/

theorem awardBadge_streak (u : ClimateUserData) (i n : String) :
    (awardBadge u i n).1.streak = u.streak := by
  unfold awardBadge; split <;> rfl

theorem awardBadge_lastVisit (u : ClimateUserData) (i n : String) :
    (awardBadge u i n).1.lastVisit = u.lastVisit := by
  unfold awardBadge; split <;> rfl

theorem selectAnswer_answered (q : ClimateQuestion) (cq : ClimateQuizState)
    (i : Nat) : (selectAnswer q cq i).1.answered = true := by
  unfold selectAnswer
  split
  · next h => exact h
  · dsimp only
    split <;> rfl

/-! Claim theorems. -/

/-- C3: badge awarding is idempotent and at-most-once per user: a second
`checkAndAwardBadge` with no progress change in between leaves the state
unchanged and emits no notification, and when a badge id occurs at most
once in the badge list, it still occurs at most once after any award. -/
theorem badge_award_idempotent_at_most_once (p : UserProgress) (b b' : String)
    (h : p.badges.count b ≤ 1) :
    checkAndAwardBadge (checkAndAwardBadge p b).1 b =
      ((checkAndAwardBadge p b).1, []) ∧
    (checkAndAwardBadge p b').1.badges.count b ≤ 1 := by
  constructor
  · exact award_already _ b (award_mem_self p b)
  · unfold checkAndAwardBadge
    split
    · exact h
    · next hmem =>
      dsimp only
      rw [List.count_append]
      by_cases hbb : b' = b
      · subst hbb
        rw [List.count_eq_zero.mpr hmem]
        simp
      · have : [b'].count b = 0 := by
          simp [List.count_singleton', Ne.symm hbb]
        omega

/-- Witness for C3 at the concrete badge `quiz_master` on a fresh user. -/
theorem badge_award_idempotent_witness :
    checkAndAwardBadge (checkAndAwardBadge initialProgress "quiz_master").1
        "quiz_master" =
      ((checkAndAwardBadge initialProgress "quiz_master").1, []) ∧
    (checkAndAwardBadge initialProgress "quiz_master").1.badges.count
        "quiz_master" ≤ 1 :=
  badge_award_idempotent_at_most_once initialProgress "quiz_master"
    "quiz_master" (by simp [initialProgress])

/-- C5: a second submit on the same quiz instance is a no-op: the climate
handler `selectAnswer` is cut off by the `answered` guard (state and score
unchanged, no option marked), and the spaced.js `submitQuiz` finds no
checked radio in the results view, so it changes nothing a second time. -/
theorem second_submit_is_noop (cq : ClimateQuizState) (q : ClimateQuestion)
    (i j a c : Nat) (p : UserProgress) :
    selectAnswer q (selectAnswer q cq i).1 j = ((selectAnswer q cq i).1, []) ∧
    (selectAnswer q (selectAnswer q cq i).1 j).1.score =
      (selectAnswer q cq i).1.score ∧
    submitQuiz (submitQuiz (QuizView.question (some a)) c p).1 c
        (submitQuiz (QuizView.question (some a)) c p).2.1 =
      ((submitQuiz (QuizView.question (some a)) c p).1,
       (submitQuiz (QuizView.question (some a)) c p).2.1, []) := by
  have hg : selectAnswer q (selectAnswer q cq i).1 j =
      ((selectAnswer q cq i).1, []) := by
    unfold selectAnswer
    rw [if_pos]
    show (selectAnswer q cq i).1.answered = true
    exact selectAnswer_answered q cq i
  refine ⟨hg, by rw [hg], ?_⟩
  rw [submit_view]
  rfl

/-- C10: in the SpaceEd quiz a correct first submission adds exactly 10
to xp, and an incorrect submission leaves xp unchanged. -/
theorem quiz_xp_reward (a c : Nat) (p : UserProgress) :
    (submitQuiz (QuizView.question (some c)) c p).2.1.xp = p.xp + 10 ∧
    (a ≠ c → (submitQuiz (QuizView.question (some a)) c p).2.1.xp = p.xp) := by
  constructor
  · rw [submit_xp]; simp
  · intro h
    rw [submit_xp]
    simp [h]

/-- Witness for C10: correct answer 1 earns 10 xp, wrong answer 0 earns
nothing, on a fresh user. -/
theorem quiz_xp_reward_witness :
    (submitQuiz (QuizView.question (some 1)) 1 initialProgress).2.1.xp =
      initialProgress.xp + 10 ∧
    (submitQuiz (QuizView.question (some 0)) 1 initialProgress).2.1.xp =
      initialProgress.xp :=
  ⟨(quiz_xp_reward 0 1 initialProgress).1,
   (quiz_xp_reward 0 1 initialProgress).2 (by decide)⟩

/-- C2: the stored level always equals `floor(xp/100) + 1`: the invariant
holds of the initial state and is preserved by every sequence of core
operations, and the derived level takes the spec example values. -/
theorem level_is_derived_from_xp (ops : List Op) (p : UserProgress)
    (h : levelInv p) :
    levelInv (runOps ops p) ∧ levelInv initialProgress ∧
    derivedLevel 0 = 1 ∧ derivedLevel 99 = 1 ∧
    derivedLevel 100 = 2 ∧ derivedLevel 250 = 3 :=
  ⟨runOps_levelInv ops p h, rfl, rfl, rfl, rfl, rfl⟩

/-- Witness for C2: the invariant after completing a lesson, a quiz and a
course starting from a fresh user. -/
theorem level_is_derived_from_xp_witness :
    levelInv (runOps [Op.mark "aerospace" 0 0, Op.submit (some 1) 1,
        Op.complete] initialProgress) ∧ levelInv initialProgress ∧
    derivedLevel 0 = 1 ∧ derivedLevel 99 = 1 ∧
    derivedLevel 100 = 2 ∧ derivedLevel 250 = 3 :=
  level_is_derived_from_xp
    [Op.mark "aerospace" 0 0, Op.submit (some 1) 1, Op.complete]
    initialProgress rfl

/-- C7: across every sequence of core operations, no completed-lesson
index is lost, no badge id is lost, and xp never decreases. -/
theorem progress_monotonicity (ops : List Op) (p : UserProgress) :
    (∀ c x, x ∈ cl p c → x ∈ cl (runOps ops p) c) ∧
    (∀ b, b ∈ p.badges → b ∈ (runOps ops p).badges) ∧
    p.xp ≤ (runOps ops p).xp :=
  ⟨fun c x h => runOps_cl_mono ops p c x h,
   fun b h => runOps_badges_mono ops p b h,
   runOps_xp_mono ops p⟩

/-- Witness for C7 on a concrete user and operation sequence. -/
theorem progress_monotonicity_witness :
    0 ∈ cl (runOps [Op.complete, Op.streak 5, Op.award "explorer"]
        sampleProgressWithLesson) "aerospace" ∧
    "first_lesson" ∈ (runOps [Op.complete, Op.streak 5, Op.award "explorer"]
        sampleProgressWithLesson).badges ∧
    sampleProgressWithLesson.xp ≤
      (runOps [Op.complete, Op.streak 5, Op.award "explorer"]
        sampleProgressWithLesson).xp :=
  ⟨(progress_monotonicity _ _).1 "aerospace" 0
      (by simp [sampleProgressWithLesson, cl, lookupC]),
   (progress_monotonicity _ _).2.1 "first_lesson"
      (by simp [sampleProgressWithLesson]),
   (progress_monotonicity _ _).2.2⟩

/-- C4: streak update rules for both `updateStreak` (spaced.js) and
`checkDailyVisit` (part_000): a same-day call changes nothing; the day
after the stored date increments the streak by 1; any other date resets
it to 1; whenever the date differs the stored date becomes today. -/
theorem streak_update_rules (p : UserProgress) (u : ClimateUserData) (d : Int) :
    (p.lastLoginDate = some d → updateStreak p d = (p, [])) ∧
    (p.lastLoginDate = some (d - 1) →
      (updateStreak p d).1.streak = p.streak + 1 ∧
      (updateStreak p d).1.lastLoginDate = some d) ∧
    (p.lastLoginDate ≠ some d → p.lastLoginDate ≠ some (d - 1) →
      (updateStreak p d).1.streak = 1 ∧
      (updateStreak p d).1.lastLoginDate = some d) ∧
    (u.lastVisit = some d → checkDailyVisit u d = (u, [])) ∧
    (u.lastVisit = some (d - 1) →
      (checkDailyVisit u d).1.streak = u.streak + 1 ∧
      (checkDailyVisit u d).1.lastVisit = some d) ∧
    (u.lastVisit ≠ some d → u.lastVisit ≠ some (d - 1) →
      (checkDailyVisit u d).1.streak = 1 ∧
      (checkDailyVisit u d).1.lastVisit = some d) := by
  refine ⟨?_, ?_, ?_, ?_, ?_, ?_⟩
  · intro h
    unfold updateStreak
    rw [if_pos h]
  · intro h
    have hne : p.lastLoginDate ≠ some d := by
      rw [h]
      intro hc
      have := Option.some.inj hc
      omega
    unfold updateStreak
    rw [if_neg hne]
    dsimp only
    rw [if_pos h]
    constructor
    · dsimp only
      split
      · rw [award_streak]
      · rfl
    · rfl
  · intro hne hne2
    unfold updateStreak
    rw [if_neg hne]
    dsimp only
    rw [if_neg hne2]
    exact ⟨rfl, rfl⟩
  · intro h
    unfold checkDailyVisit
    rw [if_pos h]
  · intro h
    have hne : u.lastVisit ≠ some d := by
      rw [h]
      intro hc
      have := Option.some.inj hc
      omega
    unfold checkDailyVisit
    rw [if_neg hne]
    dsimp only
    rw [if_pos h]
    constructor
    · split
      · rw [awardBadge_streak]
      · split
        · rw [awardBadge_streak]
        · rfl
    · split
      · rw [awardBadge_lastVisit]
      · split
        · rw [awardBadge_lastVisit]
        · rfl
  · intro hne hne2
    unfold checkDailyVisit
    rw [if_neg hne]
    dsimp only
    rw [if_neg hne2]
    constructor
    · split
      · rw [awardBadge_streak]
      · split
        · rw [awardBadge_streak]
        · rfl
    · split
      · rw [awardBadge_lastVisit]
      · split
        · rw [awardBadge_lastVisit]
        · rfl

/-- Witness for C4: the spec scenario — streak 5 last seen day 0,
updating on day 1 yields 6, then updating on day 4 (gap) yields 1. -/
theorem streak_update_rules_witness :
    (updateStreak sampleStreakProgress 1).1.streak = 6 ∧
    (updateStreak (updateStreak sampleStreakProgress 1).1 4).1.streak = 1 := by
  have h1 := (streak_update_rules sampleStreakProgress sampleClimateUser 1).2.1
    (by decide)
  have h2 := (streak_update_rules (updateStreak sampleStreakProgress 1).1
    sampleClimateUser 4).2.2.1 (by decide) (by decide)
  exact ⟨by rw [h1.1]; decide, h2.1⟩

/-- C1: a confirmed advancement adds the current lesson index to the
completed set of the course idempotently, adds 25 xp exactly when the index is
new, and moves to lesson `i+1` when `i+1 < lessonCount`, otherwise
reaches `courseComplete`, awards the `course_complete` badge and adds a
further 100 xp. -/
theorem advance_bookkeeping (s : AppState) (n : Nat) (d : Int) :
    cl (proceedToNextLesson s n d).1.userProgress s.currentCourse =
      (if s.currentLesson ∈ cl s.userProgress s.currentCourse
       then cl s.userProgress s.currentCourse
       else cl s.userProgress s.currentCourse ++ [s.currentLesson]) ∧
    (s.currentLesson + 1 < n →
      (proceedToNextLesson s n d).2.1 =
        AdvanceResult.onLesson (s.currentLesson + 1) ∧
      (proceedToNextLesson s n d).1.currentLesson = s.currentLesson + 1 ∧
      (proceedToNextLesson s n d).1.userProgress.xp =
        (if s.currentLesson ∈ cl s.userProgress s.currentCourse
         then s.userProgress.xp else s.userProgress.xp + 25)) ∧
    (¬ s.currentLesson + 1 < n →
      (proceedToNextLesson s n d).2.1 = AdvanceResult.courseComplete ∧
      "course_complete" ∈ (proceedToNextLesson s n d).1.userProgress.badges ∧
      (proceedToNextLesson s n d).1.userProgress.xp =
        (if s.currentLesson ∈ cl s.userProgress s.currentCourse
         then s.userProgress.xp else s.userProgress.xp + 25) + 100) := by
  unfold proceedToNextLesson
  dsimp only
  by_cases hc : (s.currentLesson : Int) < (n : Int) - 1
  · rw [if_pos hc]
    refine ⟨mark_cl_self _ _ _ _,
      fun _ => ⟨rfl, rfl, mark_xp _ _ _ _⟩,
      fun h => absurd (by omega : s.currentLesson + 1 < n) h⟩
  · rw [if_neg hc]
    dsimp only
    refine ⟨?_, fun h => absurd (by omega : (s.currentLesson : Int) < (n : Int) - 1) hc,
      fun _ => ⟨rfl, complete_mem_badge _, ?_⟩⟩
    · rw [complete_cl, mark_cl_self]
    · rw [complete_xp, mark_xp]

/-- Witness for C1: from a fresh user, advancing on lesson 0 of a
2-lesson course moves to lesson 1 with 25 xp; on a 1-lesson course it
completes the course, awards the badge and reaches 125 xp. -/
theorem advance_bookkeeping_witness :
    (proceedToNextLesson ⟨"aerospace", 0, initialProgress⟩ 2 0).2.1 =
      AdvanceResult.onLesson 1 ∧
    (proceedToNextLesson ⟨"aerospace", 0, initialProgress⟩ 2
        0).1.userProgress.xp = 25 ∧
    (proceedToNextLesson ⟨"astronomy", 0, initialProgress⟩ 1 0).2.1 =
      AdvanceResult.courseComplete ∧
    "course_complete" ∈ (proceedToNextLesson ⟨"astronomy", 0,
        initialProgress⟩ 1 0).1.userProgress.badges ∧
    (proceedToNextLesson ⟨"astronomy", 0, initialProgress⟩ 1
        0).1.userProgress.xp = 125 := by
  have h1 := (advance_bookkeeping ⟨"aerospace", 0, initialProgress⟩ 2 0).2.1
    (by decide)
  have h2 := (advance_bookkeeping ⟨"astronomy", 0, initialProgress⟩ 1 0).2.2
    (by decide)
  refine ⟨h1.1, ?_, h2.1, h2.2.1, ?_⟩
  · rw [h1.2.2]
    decide
  · rw [h2.2.2]
    decide

/-- C6 counterexample: after a wrong SpaceEd submission the entire
observable outcome of `submitQuiz` (rendered view, progress,
notifications) is identical for two quizzes whose correct indices differ
(1 versus 2), so the correct index is not disclosed to the caller. -/
theorem quiz_reveal_counterexample :
    submitQuiz (QuizView.question (some 0)) 1 initialProgress =
      submitQuiz (QuizView.question (some 0)) 2 initialProgress ∧
    (1 : Nat) ≠ 2 :=
  ⟨rfl, by decide⟩

/-- C6 amended: both quizzes compute isCorrect as
`selectedIndex == correctIndex` on a first submission; the climate quiz
additionally marks the correct option after every submission, while the
SpaceEd results view carries only the isCorrect flag. -/
theorem quiz_grading_and_reveal (a c : Nat) (q : ClimateQuestion)
    (cq : ClimateQuizState) (p : UserProgress) :
    (submitQuiz (QuizView.question (some a)) c p).1 =
      QuizView.results (a == c) ∧
    ((a == c) = true ↔ a = c) ∧
    (cq.answered = false →
      (selectAnswer q cq a).1.score =
        (if a = q.correct then cq.score + 1 else cq.score)) ∧
    (cq.answered = false → q.correct < q.options.length →
      ((selectAnswer q cq a).2)[q.correct]? = some OptionMark.correct) := by
  refine ⟨submit_view a c p, beq_iff_eq, ?_, ?_⟩
  · intro h
    unfold selectAnswer
    rw [if_neg (by simp [h])]
    dsimp only
    by_cases hq : a = q.correct <;> simp [hq]
  · intro h hlt
    unfold selectAnswer
    rw [if_neg (by simp [h])]
    dsimp only
    split <;> simp [List.getElem?_range hlt]

/-- Witness for C6 amended, at the spec scenario quiz (options A-D,
correct index 2) with the wrong answer 0. -/
theorem quiz_grading_and_reveal_witness :
    (submitQuiz (QuizView.question (some 0)) 2 initialProgress).1 =
      QuizView.results (0 == 2) ∧
    ((0 == 2) = true ↔ (0 : Nat) = 2) ∧
    (selectAnswer sampleQuestion ⟨0, 0, false⟩ 0).1.score =
      (if 0 = sampleQuestion.correct then 0 + 1 else 0) ∧
    ((selectAnswer sampleQuestion ⟨0, 0, false⟩ 0).2)[sampleQuestion.correct]? =
      some OptionMark.correct := by
  have h := quiz_grading_and_reveal 0 2 sampleQuestion ⟨0, 0, false⟩
    initialProgress
  exact ⟨h.1, h.2.1, h.2.2.1 rfl, h.2.2.2 rfl (by decide)⟩

/-- C8: contrary to the claim (and to the in-code catalog description,
"Complete your first lesson"), the code awards `first_lesson` from
`loadLesson`, i.e. upon merely viewing a lesson: a fresh user loading
lesson 0 of the 15-lesson aerospace course receives the badge while
`completedLessons` is still empty. -/
theorem first_lesson_awarded_on_view :
    (loadLesson initialProgress 15 0).1.badges = ["first_lesson"] ∧
    (loadLesson initialProgress 15 0).1.completedLessons = [] ∧
    (badgeCatalog.find? (fun b => b.id = "first_lesson")).map
      (fun b => b.description) = some "Complete your first lesson" := by
  refine ⟨?_, ?_, ?_⟩ <;> rfl

/-- C9 counterexample: with a logged-in user and a malformed progress
blob, `loadUserData` propagates the `JSON.parse` exception instead of
returning the default progress. -/
theorem malformed_blob_propagates_error :
    loadUserData (some (Json.value "user@example.com")) (some Json.malformed) =
      Except.error "SyntaxError" ∧
    loadUserData (some (Json.value "user@example.com")) (some Json.malformed) ≠
      Except.ok initialProgress :=
  ⟨rfl, fun h => Except.noConfusion h⟩

/-- C9 amended: when nothing is persisted (no user, or no progress blob)
the load yields the zero-valued default progress (xp 0, level 1, streak
0, empty lessons and badges), and a well-formed blob is returned as
saved; but a malformed blob raises and propagates an error rather than
falling back to the default. -/
theorem load_defaults_or_propagates (u : String)
    (dopt : Option (Json UserProgress)) (q : UserProgress) :
    loadUserData none dopt = Except.ok initialProgress ∧
    loadUserData (some (Json.value u)) none = Except.ok initialProgress ∧
    loadUserData (some (Json.value u)) (some (Json.value q)) = Except.ok q ∧
    loadUserData (some (Json.value u)) (some Json.malformed) =
      Except.error "SyntaxError" ∧
    initialProgress.xp = 0 ∧ initialProgress.level = 1 ∧
    initialProgress.streak = 0 ∧ initialProgress.completedLessons = [] ∧
    initialProgress.badges = [] :=
  ⟨rfl, rfl, rfl, rfl, rfl, rfl, rfl, rfl, rfl⟩

end NasaApp
